import Mathlib

/-!
Shallow embedding of the partyplayer program (src/src/main.rs) and proofs
about its specification claims.

The program is a small playlist player: it loads a persistent state
(`seed`, `index`) from an INI file, shuffles a track list with an RNG
seeded from `seed`, and runs a loop that supervises one external player
process and answers HTTP requests.

External crates (`rand`, `ini`, `tiny_http`, `std::process`) are modelled
at their interface: the RNG is a deterministic generator seeded from a
u64 (the determinism claims depend only on its purity, not on the exact
stream), the INI layer is modelled as a structured document of sections
of key/value string pairs (the crate's text serialization round-trips
these exactly), and OS processes are modelled by a record carrying the
process's liveness and whether each control operation succeeds.

Rust panics (out-of-bounds indexing, `Option::unwrap` on `None`) are
modelled by `none` / a dedicated `panic` outcome constructor.
-/

namespace Partyplayer

/-- Track paths are opaque strings (Rust `PathBuf`). -/
abbrev PathBuf := String

/-- Model of `std::io::Error` restricted to the distinctions the program
can observe: which process-control operation failed, or some other error. -/
inductive IoError where
  | killFailed
  | waitFailed
  | tryWaitFailed
  | other
deriving DecidableEq

/-- Model of `ini::ini::Error` (the external crate failed to parse the file). -/
inductive IniError where
  | parseError
deriving DecidableEq

/-- `enum PlaylistError { Io(io::Error) }` from the source. -/
inductive PlaylistError where
  | io (e : IoError)
deriving DecidableEq

/-- `enum StateError { Ini(ini::ini::Error), ParseInt(..) }` from the source. -/
inductive StateError where
  | ini (e : IniError)
  | parseInt
deriving DecidableEq

/-! ### Decimal rendering and parsing (models `u64::to_string` and `str::parse::<u64>`) -/

/-- Decimal digits of a natural number, least significant first.  Fuel-based
structural recursion so that concrete values reduce definitionally; with
fuel greater than `n` it computes the full digit list. -/
def digitsRevAux : Nat → Nat → List Nat
  | 0, _ => []
  | fuel + 1, n => if n < 10 then [n] else n % 10 :: digitsRevAux fuel (n / 10)

/-- Decimal digits of `n`, least significant first. -/
def digitsRev (n : Nat) : List Nat := digitsRevAux (n + 1) n

/-- Value of a least-significant-first digit list. -/
def ofRevDigits : List Nat → Nat
  | [] => 0
  | d :: ds => d + 10 * ofRevDigits ds

/-- Digit to ASCII character. -/
def digitChar (d : Nat) : Char := Char.ofNat (48 + d)

/-- Decimal rendering of a natural number; models Rust's `to_string` on
unsigned integers. -/
def natToString (n : Nat) : String := String.mk ((digitsRev n).reverse.map digitChar)

/-- ASCII character to digit, `none` if not a decimal digit. -/
def charToDigit (c : Char) : Option Nat :=
  if 48 ≤ c.toNat ∧ c.toNat ≤ 57 then some (c.toNat - 48) else none

/-- Parse every character as a digit, most significant first. -/
def parseDigits : List Char → Option (List Nat)
  | [] => some []
  | c :: cs =>
    match charToDigit c, parseDigits cs with
    | some d, some ds => some (d :: ds)
    | _, _ => none

/-- Strip one optional leading plus sign (Rust's integer parsing accepts it). -/
def stripPlus (cs : List Char) : List Char :=
  if cs.head? = some '+' then cs.tail else cs

/-- Digit-sequence phase of integer parsing: one or more decimal digits,
most significant first, rejecting the empty sequence, non-digit characters
and values that overflow 64 bits. -/
def parseU64core (cs : List Char) : Option Nat :=
  if cs.isEmpty then none
  else
    (parseDigits cs).bind (fun ds =>
      if ds.foldl (fun a d => a * 10 + d) 0 < 2 ^ 64 then
        some (ds.foldl (fun a d => a * 10 + d) 0)
      else none)

/-- Model of Rust `str::parse::<u64>` (also `parse::<usize>` on a 64-bit
target): an optional leading plus sign, then one or more decimal digits,
rejecting the empty string, non-digit characters and values that overflow
64 bits. -/
def parseU64 (s : String) : Option Nat := parseU64core (stripPlus s.data)

/-! ### The INI document model -/

/-- An INI document as produced/consumed by the external `ini` crate:
a list of sections, each a name with key/value string pairs. -/
abbrev IniDoc := List (String × List (String × String))

/-- First-match association lookup (models the crate's `section`/`get`). -/
def assocLookup {α : Type} : List (String × α) → String → Option α
  | [], _ => none
  | (k, v) :: rest, key => if k = key then some v else assocLookup rest key

/-! ### Persistent state (`struct State`) -/

/-- `struct State { seed: u64, index: usize }`. Machine integers are
modelled as `Nat`; the u64/usize range constraints appear as hypotheses
where they matter. -/
structure State where
  seed : Nat
  index : Nat
deriving DecidableEq

/-- Outcome of `State::load`: success, a returned `StateError`, or a Rust
panic (the source calls `.unwrap()` on the section and key lookups, so a
missing section or key panics instead of returning an error). -/
inductive LoadOutcome where
  | ok (s : State)
  | error (e : StateError)
  | panic
deriving DecidableEq

/-- `State::write`: builds the INI document with one section `general`
holding `seed` and `index` as decimal strings.  The text serialization
itself belongs to the external `ini` crate, which round-trips this
structured document exactly. -/
def State.write (s : State) : IniDoc :=
  [("general", [("seed", natToString s.seed), ("index", natToString s.index)])]

/-- `State::load`: the input is the outcome of the external crate's
`Ini::load_from_file` (either a parse error or the parsed document).
Mirrors the source line by line: a crate error maps to `StateError::Ini`;
the section and key lookups are `.unwrap()`ed (panic on `none`); integer
parse failures map to `StateError::ParseInt`. -/
def State.load (input : Except IniError IniDoc) : LoadOutcome :=
  match input with
  | .error e => .error (.ini e)
  | .ok conf =>
    match assocLookup conf "general" with
    | none => .panic
    | some sect =>
      match assocLookup sect "seed" with
      | none => .panic
      | some vs =>
        match parseU64 vs with
        | none => .error .parseInt
        | some seedv =>
          match assocLookup sect "index" with
          | none => .panic
          | some vi =>
            match parseU64 vi with
            | none => .error .parseInt
            | some indexv => .ok ⟨seedv, indexv⟩

/-- Result of `main`'s state-initialization prologue. -/
inductive StartupResult where
  | proceed (s : State)
  | exit1
  | panicked
deriving DecidableEq

/-- The state-handling prologue of `main`: if `state.ini` exists, load it;
a returned error prints a diagnostic and calls `process::exit(1)`; a panic
aborts; otherwise the freshly generated state (random seed, index 0) is
used. -/
def mainStateStartup (fileExists : Bool) (input : Except IniError IniDoc)
    (fresh : State) : StartupResult :=
  if fileExists then
    match State.load input with
    | .ok s => .proceed s
    | .error _ => .exit1
    | .panic => .panicked
  else .proceed fresh

/-! ### The seeded RNG (models `rand::rngs::StdRng`) -/

/-- Model of `rand::rngs::StdRng`: a deterministic generator whose state is
a 64-bit word.  The crate's ChaCha core is external to this repository; the
model uses a SplitMix64-style step.  Every claim proved about it depends
only on it being a pure function of the seed. -/
structure StdRng where
  s : Nat
deriving DecidableEq

/-- `SeedableRng::seed_from_u64`. -/
def StdRng.seed_from_u64 (seed : Nat) : StdRng := ⟨seed % 2 ^ 64⟩

/-- One generator step producing a 64-bit word (SplitMix64-style mixing). -/
def StdRng.next (r : StdRng) : Nat × StdRng :=
  let s1 := (r.s + 0x9E3779B97F4A7C15) % 2 ^ 64
  let z1 := (Nat.xor s1 (Nat.shiftRight s1 30) * 0xBF58476D1CE4E5B9) % 2 ^ 64
  let z2 := (Nat.xor z1 (Nat.shiftRight z1 27) * 0x94D049BB133111EB) % 2 ^ 64
  let z3 := Nat.xor z2 (Nat.shiftRight z2 31)
  (z3, ⟨s1⟩)

/-- `Rng::gen_range(0, n)`: a uniform draw below `n`, modelled as a
generator step reduced mod `n`. -/
def StdRng.gen_range (r : StdRng) (n : Nat) : Nat × StdRng :=
  let (x, r') := r.next
  (x % n, r')

/-- Swap two positions of a list (models `Vec::swap`; indices are always in
bounds where the shuffle uses it). -/
def listSwap {α : Type} (l : List α) (i j : Nat) : List α :=
  match l.get? i, l.get? j with
  | some a, some b => (l.set i b).set j a
  | _, _ => l

/-- The Fisher-Yates loop of `SliceRandom::shuffle`: for `i` from
`len - 1` down to `1`, swap position `i` with a draw from `[0, i]`.
The argument is the current loop index. -/
def shuffleAux (r : StdRng) (l : List PathBuf) : Nat → List PathBuf × StdRng
  | 0 => (l, r)
  | i + 1 =>
    let (j, r') := r.gen_range (i + 2)
    shuffleAux r' (listSwap l (i + 1) j) i

/-- `files.shuffle(&mut rng)`. -/
def shuffle (l : List PathBuf) (r : StdRng) : List PathBuf × StdRng :=
  shuffleAux r l (l.length - 1)

/-! ### Playlist -/

/-- `struct Playlist { files: Vec<PathBuf> }`. -/
structure Playlist where
  files : List PathBuf
deriving DecidableEq

/-- `Playlist::new`: the input is the outcome of reading `files.txt`
(an I/O error or the list of lines); on success the lines are shuffled
with an RNG seeded from `state.seed`.  Note the source performs no
empty-list check. -/
def Playlist.new (fileResult : Except IoError (List PathBuf)) (state : State) :
    Except PlaylistError Playlist :=
  match fileResult with
  | .error e => .error (.io e)
  | .ok lines => .ok ⟨(shuffle lines (StdRng.seed_from_u64 state.seed)).1⟩

/-- `Playlist::next`: reads the track at `state.index` and increments the
index.  `none` models the Rust panic from the unchecked `self.files[n]`
indexing when the cursor is out of range. -/
def Playlist.next (pl : Playlist) (s : State) : Option (PathBuf × State) :=
  match pl.files.get? s.index with
  | some t => some (t, ⟨s.seed, s.index + 1⟩)
  | none => none

/-! ### Child processes (models `std::process::Child`) -/

/-- Model of a spawned OS process: whether it is still alive, and whether
each control operation the program uses will fail. -/
structure ChildProc where
  alive : Bool
  killFails : Bool
  waitFails : Bool
  tryWaitFails : Bool
deriving DecidableEq

/-- `Child::kill`: on success the process is terminated. -/
def ChildProc.kill (c : ChildProc) : Except IoError ChildProc :=
  if c.killFails then .error .killFailed else .ok { c with alive := false }

/-- `Child::wait`: blocks until the process has exited and reaps it; on
success the process is no longer alive. -/
def ChildProc.wait (c : ChildProc) : Except IoError ChildProc :=
  if c.waitFails then .error .waitFailed else .ok { c with alive := false }

/-- `Child::try_wait`: non-blocking status check; `some ()` means the
process has exited. -/
def ChildProc.try_wait (c : ChildProc) : Except IoError (Option Unit) :=
  if c.tryWaitFails then .error .tryWaitFailed
  else if c.alive then .ok none else .ok (some ())

/-! ### The player supervisor (`struct Player`) -/

/-- `struct Player { playlist, state, child, current_track }`.  The source
stores references; the model stores the values they denote. -/
structure Player where
  playlist : Playlist
  state : State
  child : Option ChildProc
  current_track : Option PathBuf
deriving DecidableEq

/-- `Player::new`. -/
def Player.new (playlist : Playlist) (state : State) : Player :=
  ⟨playlist, state, none, none⟩

/-- Environment of one `poll_child` tick: whether the `state.ini` write
succeeds, and the outcome of the `Command::spawn` attempt (`none` models a
spawn error, `some c` the spawned process). -/
structure TickEnv where
  writeOk : Bool
  spawnResult : Option ChildProc
deriving DecidableEq

/-- Observable side effects of one `poll_child` tick, in program order. -/
inductive Effect where
  | persist (doc : IniDoc) (success : Bool)
  | logWriteError
  | logTrack (t : PathBuf)
  | spawn (cmd : String) (arg : String)
  | logSpawnError
  | logPollError
deriving DecidableEq

/-- `Player::poll_child`.  In the `None` (idle) branch: advance the
playlist (panic - `none` - if the cursor is out of range), attempt to
persist the advanced state, print the track, then attempt to spawn the
external player (`/bin/sleep 30` in the source).  In the `Some` branch:
non-blocking `try_wait`; an exited child clears the handle, an error is
logged and the handle kept. -/
def Player.poll_child (env : TickEnv) (p : Player) : Option (List Effect × Player) :=
  match p.child with
  | none =>
    match Playlist.next p.playlist p.state with
    | none => none
    | some (t, st') =>
      let doc := State.write st'
      let persistTrace :=
        if env.writeOk then [Effect.persist doc true]
        else [Effect.persist doc false, Effect.logWriteError]
      let base : Player := { p with state := st', current_track := some t }
      match env.spawnResult with
      | some c =>
        some (persistTrace ++ [Effect.logTrack t, Effect.spawn "/bin/sleep" "30"],
          { base with child := some c })
      | none =>
        some (persistTrace ++
          [Effect.logTrack t, Effect.spawn "/bin/sleep" "30", Effect.logSpawnError],
          base)
  | some c =>
    match ChildProc.try_wait c with
    | .error _ => some ([Effect.logPollError], p)
    | .ok (some _) => some ([], { p with child := none })
    | .ok none => some ([], p)

/-- `Player::skip`.  With a child handle: `kill()?`, `wait()?`, `Ok(())`.
Note the source never assigns `self.child = None` here, so the (dead,
reaped) handle stays in place; with no child it is a successful no-op. -/
def Player.skip (p : Player) : Except IoError Unit × Player :=
  match p.child with
  | some c =>
    match c.kill with
    | .error e => (.error e, p)
    | .ok c1 =>
      match c1.wait with
      | .error e => (.error e, { p with child := some c1 })
      | .ok c2 => (.ok (), { p with child := some c2 })
  | none => (.ok (), p)

/-! ### The HTTP control surface -/

/-- Rendered text of an `io::Error` (models `e.to_string()`; the exact OS
message text is opaque, modelled by fixed strings). -/
def ioErrorMessage : IoError → String
  | .killFailed => "kill failed"
  | .waitFailed => "wait failed"
  | .tryWaitFailed => "try wait failed"
  | .other => "other error"

/-- The request-dispatch of `poll_http_server`.  The input is the outcome
of `server.recv_timeout` (`none` = timeout, `some url` = a request).  The
outer `none` models a Rust panic: the `"/"` route calls
`player.current_track.unwrap()`, which panics when no track has started
yet.  Returns the reply body (if any) and the updated player. -/
def poll_http_server (recv : Option String) (p : Player) :
    Option (Option String × Player) :=
  match recv with
  | none => some (none, p)
  | some url =>
    if url = "/skip" then
      match Player.skip p with
      | (.error e, p') => some (some ("unable to skip track: " ++ ioErrorMessage e), p')
      | (.ok _, p') =>
        some (some "<html><head><meta http-equiv=\"refresh\" content=\"0; url=/\"/></head></html>", p')
    else if url = "/" then
      match p.current_track with
      | none => none
      | some t =>
        some (some ("current track: " ++ t ++ "<br/><a href=\"/skip\">skip</a>"), p)
    else some (some "supported request", p)

/-! ## Supporting lemmas: the decimal round trip -/

theorem digitsRevAux_lt_ten : ∀ (f n : Nat), ∀ d ∈ digitsRevAux f n, d < 10 := by
  intro f
  induction f with
  | zero => intro n d hd; simp [digitsRevAux] at hd
  | succ f ih =>
    intro n d hd
    by_cases h : n < 10
    · simp [digitsRevAux, h] at hd; omega
    · simp [digitsRevAux, h] at hd
      rcases hd with h1 | h2
      · omega
      · exact ih _ _ h2

theorem digitsRevAux_ne_nil (f n : Nat) (h : 0 < f) : digitsRevAux f n ≠ [] := by
  cases f with
  | zero => omega
  | succ f => by_cases h10 : n < 10 <;> simp [digitsRevAux, h10]

theorem ofRevDigits_digitsRevAux : ∀ (f n : Nat), n < f →
    ofRevDigits (digitsRevAux f n) = n := by
  intro f
  induction f with
  | zero => intro n h; omega
  | succ f ih =>
    intro n h
    by_cases h10 : n < 10
    · simp [digitsRevAux, h10, ofRevDigits]
    · have hn : 0 < n := by omega
      have hdiv : n / 10 < f := by
        have := Nat.div_lt_self hn (by norm_num : 1 < 10)
        omega
      simp [digitsRevAux, h10, ofRevDigits, ih _ hdiv]
      omega

theorem foldl_reverse_ofRevDigits : ∀ (L : List Nat) (acc : Nat),
    L.reverse.foldl (fun a d => a * 10 + d) acc = acc * 10 ^ L.length + ofRevDigits L := by
  intro L
  induction L with
  | nil => intro acc; simp [ofRevDigits]
  | cons d ds ih =>
    intro acc
    simp [List.reverse_cons, List.foldl_append, ih, ofRevDigits]
    ring

theorem charToDigit_digitChar {d : Nat} (h : d < 10) : charToDigit (digitChar d) = some d := by
  interval_cases d <;> decide

theorem digitChar_ne_plus {d : Nat} (h : d < 10) : digitChar d ≠ '+' := by
  interval_cases d <;> decide

theorem parseDigits_map_digitChar : ∀ (L : List Nat), (∀ d ∈ L, d < 10) →
    parseDigits (L.map digitChar) = some L := by
  intro L
  induction L with
  | nil => intro _; rfl
  | cons d ds ih =>
    intro h
    have hd : d < 10 := h d (by simp)
    simp [parseDigits, charToDigit_digitChar hd, ih (fun x hx => h x (by simp [hx]))]

theorem parseU64_digitList (L : List Nat) (hlt : ∀ d ∈ L, d < 10) (hne : L ≠ [])
    (hv : ofRevDigits L < 2 ^ 64) :
    parseU64 (String.mk (L.reverse.map digitChar)) = some (ofRevDigits L) := by
  have hrevlt : ∀ d ∈ L.reverse, d < 10 := fun d hd => hlt d (List.mem_reverse.mp hd)
  obtain ⟨d0, rest, hL⟩ : ∃ d0 rest, L.reverse = d0 :: rest := by
    cases hLr : L.reverse with
    | nil => exact absurd (List.reverse_eq_nil_iff.mp hLr) hne
    | cons a l => exact ⟨a, l, rfl⟩
  have hd0 : d0 < 10 := hrevlt d0 (by rw [hL]; simp)
  have hdata : (String.mk (L.reverse.map digitChar)).data = L.reverse.map digitChar := rfl
  unfold parseU64
  rw [hdata, hL, List.map_cons]
  unfold stripPlus
  rw [List.head?_cons, if_neg (by simp [digitChar_ne_plus hd0])]
  unfold parseU64core
  rw [List.isEmpty_cons]
  simp only [Bool.false_eq_true, if_false]
  rw [← List.map_cons, ← hL, parseDigits_map_digitChar L.reverse hrevlt,
    Option.some_bind, foldl_reverse_ofRevDigits L 0]
  simp only [Nat.zero_mul, Nat.zero_add]
  rw [if_pos hv]

theorem parseU64_natToString {n : Nat} (h : n < 2 ^ 64) :
    parseU64 (natToString n) = some n := by
  have hlt : ∀ d ∈ digitsRev n, d < 10 := digitsRevAux_lt_ten _ _
  have hne : digitsRev n ≠ [] := digitsRevAux_ne_nil _ _ (Nat.succ_pos n)
  have hval : ofRevDigits (digitsRev n) = n :=
    ofRevDigits_digitsRevAux _ _ (Nat.lt_succ_self n)
  have := parseU64_digitList (digitsRev n) hlt hne (by rw [hval]; exact h)
  rw [hval] at this
  exact this

/-- The state round trip: writing then loading recovers the state, for
64-bit representable seed and cursor. -/
theorem load_write_roundtrip (s : State) (hseed : s.seed < 2 ^ 64)
    (hindex : s.index < 2 ^ 64) :
    State.load (.ok (State.write s)) = .ok s := by
  have h1 := parseU64_natToString hseed
  have h2 := parseU64_natToString hindex
  simp [State.load, State.write, assocLookup, h1, h2]

/-- Characterization of an Idle tick of `poll_child`: with no child and an
in-range cursor, the tick advances the cursor, attempts to persist the
advanced state, prints the track, attempts the spawn, and installs the
spawn outcome as the child handle. -/
theorem poll_child_idle_eq (p : Player) (env : TickEnv) (t : PathBuf)
    (hidle : p.child = none)
    (ht : p.playlist.files.get? p.state.index = some t) :
    Player.poll_child env p =
      some ((if env.writeOk then
              [Effect.persist (State.write ⟨p.state.seed, p.state.index + 1⟩) true]
            else
              [Effect.persist (State.write ⟨p.state.seed, p.state.index + 1⟩) false,
                Effect.logWriteError]) ++
            [Effect.logTrack t, Effect.spawn "/bin/sleep" "30"] ++
            (match env.spawnResult with
             | some _ => []
             | none => [Effect.logSpawnError]),
        { p with state := ⟨p.state.seed, p.state.index + 1⟩,
                 current_track := some t,
                 child := env.spawnResult }) := by
  rw [List.get?_eq_getElem?] at ht
  obtain ⟨w, spr⟩ := env
  cases w <;> cases spr <;>
    simp [Player.poll_child, Playlist.next, hidle, ht]

/-! ## Claim theorems -/

/-- C1: the shuffle is deterministic and a pure function of the raw track
list and the seed: building the playlist from the same tracks under any
two states with the same seed (seeding the generator, then shuffling)
produces identical output sequences. -/
theorem claim_C1_shuffle_deterministic (files : List PathBuf) (s1 s2 : State)
    (h : s1.seed = s2.seed) :
    Playlist.new (.ok files) s1 = Playlist.new (.ok files) s2 := by
  unfold Playlist.new
  rw [h]

/-- Witness for C1 at a concrete track list and seed 42 (two states that
agree on the seed but not on the cursor). -/
theorem claim_C1_shuffle_deterministic_witness :
    (State.mk 42 0).seed = (State.mk 42 7).seed ∧
      Playlist.new (.ok ["a.mp3", "b.mp3", "c.mp3"]) ⟨42, 0⟩ =
        Playlist.new (.ok ["a.mp3", "b.mp3", "c.mp3"]) ⟨42, 7⟩ :=
  ⟨rfl, claim_C1_shuffle_deterministic ["a.mp3", "b.mp3", "c.mp3"] ⟨42, 0⟩ ⟨42, 7⟩ rfl⟩

/-- C4: persistent-state round trip: for any state with a 64-bit seed and
a cursor at most the playlist length (the length itself fitting in usize),
saving then loading recovers the same seed and cursor. -/
theorem claim_C4_roundtrip (seed index len : Nat) (hseed : seed < 2 ^ 64)
    (hcursor : index ≤ len) (hlen : len < 2 ^ 64) :
    State.load (.ok (State.write ⟨seed, index⟩)) = .ok ⟨seed, index⟩ :=
  load_write_roundtrip ⟨seed, index⟩ hseed (show index < 2 ^ 64 by omega)

/-- Witness for C4 at seed 42, cursor 2, playlist length 3. -/
theorem claim_C4_roundtrip_witness :
    (42 : Nat) < 2 ^ 64 ∧ (2 : Nat) ≤ 3 ∧ (3 : Nat) < 2 ^ 64 ∧
      State.load (.ok (State.write ⟨42, 2⟩)) = .ok ⟨42, 2⟩ :=
  ⟨by norm_num, by norm_num, by norm_num,
    claim_C4_roundtrip 42 2 3 (by norm_num) (by norm_num) (by norm_num)⟩

/-- C5 (code bug): `Playlist::next` at a cursor at or past the end indexes
the `Vec` out of range - a Rust panic, modelled by `none` - instead of
returning an `ExhaustedPlaylist` error as the specification requires. -/
theorem claim_C5_next_panics (pl : Playlist) (s : State)
    (h : pl.files.length ≤ s.index) :
    Playlist.next pl s = none := by
  unfold Playlist.next
  rw [List.get?_eq_none.mpr h]

/-- Witness for C5: a one-track playlist with the cursor already at 1. -/
theorem claim_C5_next_panics_witness :
    (Playlist.mk ["a"]).files.length ≤ (State.mk 0 1).index ∧
      Playlist.next ⟨["a"]⟩ ⟨0, 1⟩ = none :=
  ⟨by decide, claim_C5_next_panics ⟨["a"]⟩ ⟨0, 1⟩ (by decide)⟩

/-- C6 (code bug): a `GET /` received before the first tick - when
`current_track` is still `None` - hits `player.current_track.unwrap()` and
panics (modelled by `none`), instead of answering with a "no track yet"
response as the specification requires.  The first conjunct shows the
freshly constructed player indeed has no current track. -/
theorem claim_C6_status_unwrap_panics :
    (Player.new ⟨["a.mp3", "b.mp3", "c.mp3"]⟩ ⟨42, 0⟩).current_track = none ∧
      poll_http_server (some "/") (Player.new ⟨["a.mp3", "b.mp3", "c.mp3"]⟩ ⟨42, 0⟩) = none :=
  ⟨rfl, rfl⟩

/-- C7 (code bug): `Playlist::new` performs no zero-track check: an empty
raw track list yields `Ok` with an empty playlist instead of an
`Error(Empty)`, and the very next `advance` on that playlist indexes out
of range (panic).  The `Io` half of the claim does hold: an unreadable
track list yields `Error(Io)`. -/
theorem claim_C7_no_empty_check :
    Playlist.new (.ok []) ⟨0, 0⟩ = .ok ⟨[]⟩ ∧
      Playlist.next ⟨[]⟩ ⟨0, 0⟩ = none ∧
      Playlist.new (.error .other) ⟨0, 0⟩ = .error (.io .other) :=
  ⟨rfl, rfl, rfl⟩

/-- C2: advance-before-play crash consistency.  In every Idle tick with an
in-range cursor and a successful state write, the cursor is advanced and
the advanced state is the one persisted, the persist effect precedes the
spawn attempt in the effect trace, reloading the persisted file recovers
the advanced state, and a run resumed from it pulls the track at the next
position - never the position of the track that was about to start. -/
theorem claim_C2_advance_before_play (p : Player) (env : TickEnv) (t t' : PathBuf)
    (hidle : p.child = none)
    (ht : p.playlist.files.get? p.state.index = some t)
    (ht' : p.playlist.files.get? (p.state.index + 1) = some t')
    (hw : env.writeOk = true)
    (hseed : p.state.seed < 2 ^ 64)
    (hlen : p.playlist.files.length < 2 ^ 64) :
    ∃ tr p', Player.poll_child env p = some (tr, p') ∧
      p'.state.seed = p.state.seed ∧
      p'.state.index = p.state.index + 1 ∧
      p'.current_track = some t ∧
      (∃ k, tr.get? k = some (Effect.persist (State.write p'.state) true) ∧
        ∀ m cmd arg, tr.get? m = some (Effect.spawn cmd arg) → k < m) ∧
      State.load (.ok (State.write p'.state)) = .ok p'.state ∧
      (∃ tr2 q, Player.poll_child env (Player.new p.playlist p'.state) = some (tr2, q) ∧
        q.current_track = some t' ∧ q.state.index = p.state.index + 2) := by
  have hlt' : p.state.index + 1 < p.playlist.files.length := by
    rcases List.get?_eq_some.mp ht' with ⟨h, _⟩
    exact h
  have hround := load_write_roundtrip ⟨p.state.seed, p.state.index + 1⟩ hseed
    (show p.state.index + 1 < 2 ^ 64 by omega)
  have hmain := poll_child_idle_eq p env t hidle ht
  have hres := poll_child_idle_eq
    (Player.new p.playlist ⟨p.state.seed, p.state.index + 1⟩) env t' rfl ht'
  obtain ⟨w, spr⟩ := env
  have hw' : w = true := hw
  subst hw'
  cases spr with
  | none =>
    simp at hmain hres
    refine ⟨_, _, hmain, rfl, rfl, rfl, ⟨0, rfl, ?_⟩, hround, ⟨_, _, hres, rfl, rfl⟩⟩
    rintro (_ | _ | _ | _ | m) cmd arg hm <;> simp [List.get?] at hm <;> omega
  | some c =>
    simp at hmain hres
    refine ⟨_, _, hmain, rfl, rfl, rfl, ⟨0, rfl, ?_⟩, hround, ⟨_, _, hres, rfl, rfl⟩⟩
    rintro (_ | _ | _ | _ | m) cmd arg hm <;> simp [List.get?] at hm <;> omega

/-- Witness for C2: three tracks, seed 42, cursor 0, successful write,
failing spawn environment. -/
theorem claim_C2_advance_before_play_witness :
    ∃ tr p', Player.poll_child ⟨true, none⟩ (Player.mk ⟨["a", "b", "c"]⟩ ⟨42, 0⟩ none none) =
        some (tr, p') ∧
      p'.state.seed = 42 ∧
      p'.state.index = 1 ∧
      p'.current_track = some "a" ∧
      (∃ k, tr.get? k = some (Effect.persist (State.write p'.state) true) ∧
        ∀ m cmd arg, tr.get? m = some (Effect.spawn cmd arg) → k < m) ∧
      State.load (.ok (State.write p'.state)) = .ok p'.state ∧
      (∃ tr2 q, Player.poll_child ⟨true, none⟩ (Player.new ⟨["a", "b", "c"]⟩ p'.state) =
          some (tr2, q) ∧
        q.current_track = some "b" ∧ q.state.index = 2) :=
  claim_C2_advance_before_play (Player.mk ⟨["a", "b", "c"]⟩ ⟨42, 0⟩ none none)
    ⟨true, none⟩ "a" "b" rfl rfl rfl rfl (by norm_num) (by norm_num)

/-- C8: spawn-failure policy.  In an Idle tick whose spawn fails, the
error is logged and the supervisor remains Idle (no child handle); the
cursor was already advanced, and its persistence was attempted before the
spawn; consequently the following tick pulls the track at the next
position, silently skipping the one whose spawn failed. -/
theorem claim_C8_spawn_failure (p : Player) (env env2 : TickEnv) (t t' : PathBuf)
    (hidle : p.child = none)
    (ht : p.playlist.files.get? p.state.index = some t)
    (ht' : p.playlist.files.get? (p.state.index + 1) = some t')
    (hspawn : env.spawnResult = none) :
    ∃ tr p', Player.poll_child env p = some (tr, p') ∧
      p'.child = none ∧
      p'.state.index = p.state.index + 1 ∧
      Effect.logSpawnError ∈ tr ∧
      (∃ k, tr.get? k =
          some (Effect.persist (State.write ⟨p.state.seed, p.state.index + 1⟩) env.writeOk) ∧
        ∀ m cmd arg, tr.get? m = some (Effect.spawn cmd arg) → k < m) ∧
      ∃ tr2 q, Player.poll_child env2 p' = some (tr2, q) ∧
        q.current_track = some t' ∧ q.state.index = p.state.index + 2 := by
  have hmain := poll_child_idle_eq p env t hidle ht
  obtain ⟨w, spr⟩ := env
  have hsp : spr = none := hspawn
  subst hsp
  cases w with
  | true =>
    simp at hmain
    have hres := poll_child_idle_eq
      { p with state := ⟨p.state.seed, p.state.index + 1⟩,
               current_track := some t, child := none } env2 t' rfl ht'
    refine ⟨_, _, hmain, rfl, rfl, by simp, ⟨0, rfl, ?_⟩, ⟨_, _, hres, rfl, rfl⟩⟩
    rintro (_ | _ | _ | _ | _ | m) cmd arg hm <;> simp [List.get?] at hm <;> omega
  | false =>
    simp at hmain
    have hres := poll_child_idle_eq
      { p with state := ⟨p.state.seed, p.state.index + 1⟩,
               current_track := some t, child := none } env2 t' rfl ht'
    refine ⟨_, _, hmain, rfl, rfl, by simp, ⟨0, rfl, ?_⟩, ⟨_, _, hres, rfl, rfl⟩⟩
    rintro (_ | _ | _ | _ | _ | m) cmd arg hm <;> simp [List.get?] at hm <;> omega

/-- Witness for C8: three tracks, cursor 0, spawn failing in both ticks. -/
theorem claim_C8_spawn_failure_witness :
    ∃ tr p', Player.poll_child ⟨true, none⟩ (Player.mk ⟨["a", "b", "c"]⟩ ⟨42, 0⟩ none none) =
        some (tr, p') ∧
      p'.child = none ∧
      p'.state.index = 1 ∧
      Effect.logSpawnError ∈ tr ∧
      (∃ k, tr.get? k = some (Effect.persist (State.write ⟨42, 1⟩) true) ∧
        ∀ m cmd arg, tr.get? m = some (Effect.spawn cmd arg) → k < m) ∧
      ∃ tr2 q, Player.poll_child ⟨true, none⟩ p' = some (tr2, q) ∧
        q.current_track = some "b" ∧ q.state.index = 2 :=
  claim_C8_spawn_failure (Player.mk ⟨["a", "b", "c"]⟩ ⟨42, 0⟩ none none)
    ⟨true, none⟩ ⟨true, none⟩ "a" "b" rfl rfl rfl rfl

/-- C3 counterexample: a player with a healthy running child.  `skip`
kills and reaps the child and returns success, but the source never
assigns `self.child = None`, so the handle is still present immediately
afterwards - the supervisor is not yet in the Idle state, refuting the
claim's "leaves Idle (no lingering handle) immediately". -/
theorem claim_C3_counterexample :
    (Player.skip ⟨⟨["a"]⟩, ⟨0, 0⟩, some ⟨true, false, false, false⟩, some "a"⟩).1 = .ok () ∧
      (Player.skip ⟨⟨["a"]⟩, ⟨0, 0⟩, some ⟨true, false, false, false⟩, some "a"⟩).2.child ≠
        none :=
  ⟨rfl, by decide⟩

/-- C3 amended: `skip` on Idle is a successful no-op.  `skip` with a
running child either surfaces a process-control error, or returns success
with the child terminated and reaped but the (dead) handle still in
place; the supervisor reaches Idle only on the next `poll_child` tick,
whose status check observes the exited child and clears the handle
(provided that status check itself does not error). -/
theorem claim_C3_amended (p : Player) (env : TickEnv) :
    (p.child = none → Player.skip p = (.ok (), p)) ∧
    (∀ c, p.child = some c → c.tryWaitFails = false →
      (∃ e, (Player.skip p).1 = .error e) ∨
      ((Player.skip p).1 = .ok () ∧
        ∃ c', (Player.skip p).2.child = some c' ∧ c'.alive = false ∧
          Player.poll_child env ((Player.skip p).2) =
            some ([], { (Player.skip p).2 with child := none }))) := by
  constructor
  · intro h
    simp [Player.skip, h]
  · intro c hc htw
    by_cases hk : c.killFails
    · exact .inl ⟨.killFailed, by simp [Player.skip, hc, ChildProc.kill, hk]⟩
    · by_cases hwf : c.waitFails
      · exact .inl ⟨.waitFailed,
          by simp [Player.skip, hc, ChildProc.kill, ChildProc.wait, hk, hwf]⟩
      · right
        have hskip : Player.skip p = (.ok (), { p with child := some { c with alive := false } }) := by
          simp [Player.skip, hc, ChildProc.kill, ChildProc.wait, hk, hwf]
        refine ⟨by rw [hskip], { c with alive := false }, by rw [hskip], rfl, ?_⟩
        rw [hskip]
        simp [Player.poll_child, ChildProc.try_wait, htw]

/-- Witness for C3 at a healthy running child: instantiates the amended
theorem's running-child case. -/
theorem claim_C3_amended_witness :
    (∃ e, (Player.skip ⟨⟨["a"]⟩, ⟨7, 1⟩, some ⟨true, false, false, false⟩, some "a"⟩).1 =
        .error e) ∨
    ((Player.skip ⟨⟨["a"]⟩, ⟨7, 1⟩, some ⟨true, false, false, false⟩, some "a"⟩).1 = .ok () ∧
      ∃ c', (Player.skip ⟨⟨["a"]⟩, ⟨7, 1⟩, some ⟨true, false, false, false⟩, some "a"⟩).2.child =
          some c' ∧ c'.alive = false ∧
        Player.poll_child ⟨true, none⟩
            ((Player.skip ⟨⟨["a"]⟩, ⟨7, 1⟩, some ⟨true, false, false, false⟩, some "a"⟩).2) =
          some ([],
            { (Player.skip ⟨⟨["a"]⟩, ⟨7, 1⟩, some ⟨true, false, false, false⟩, some "a"⟩).2 with
              child := none }) ) :=
  (claim_C3_amended ⟨⟨["a"]⟩, ⟨7, 1⟩, some ⟨true, false, false, false⟩, some "a"⟩
    ⟨true, none⟩).2 ⟨true, false, false, false⟩ rfl rfl

/-- C9 counterexample: a state file that parses but lacks the `seed` key.
`State::load` panics on the `.unwrap()` of the key lookup instead of
returning an error of the `StateError` taxonomy, refuting the claim's
"missing required keys yields Error(Malformed)". -/
theorem claim_C9_counterexample :
    State.load (.ok [("general", [("index", "0")])]) = .panic ∧
      State.load (.ok [("general", [("index", "0")])]) ≠ .error (.ini .parseError) ∧
      State.load (.ok [("general", [("index", "0")])]) ≠ .error .parseInt :=
  ⟨rfl, by decide, by decide⟩

/-- C9 amended: a present-but-unparsable state file yields
`Error(Ini)` and `main` terminates with a diagnostic (`exit(1)`); a file
that parses but lacks the `general` section or the `seed` or `index` key
makes `load` panic on an `.unwrap()` (which also terminates the process,
but not through the error taxonomy); an unparsable integer value yields
`Error(ParseInt)` and termination; and corruption is never auto-recovered
by regenerating a seed: whenever startup proceeds with a state-file load,
the state it proceeds with is exactly the loaded one. -/
theorem claim_C9_amended (conf : IniDoc) (sect : List (String × String)) (fresh : State) :
    (∀ e, State.load (.error e) = .error (.ini e) ∧
      mainStateStartup true (.error e) fresh = .exit1) ∧
    (assocLookup conf "general" = none →
      State.load (.ok conf) = .panic ∧
        mainStateStartup true (.ok conf) fresh = .panicked) ∧
    (assocLookup conf "general" = some sect → assocLookup sect "seed" = none →
      State.load (.ok conf) = .panic) ∧
    (∀ vs, assocLookup conf "general" = some sect → assocLookup sect "seed" = some vs →
      parseU64 vs = none →
      State.load (.ok conf) = .error .parseInt ∧
        mainStateStartup true (.ok conf) fresh = .exit1) ∧
    (∀ vs n, assocLookup conf "general" = some sect → assocLookup sect "seed" = some vs →
      parseU64 vs = some n → assocLookup sect "index" = none →
      State.load (.ok conf) = .panic) ∧
    (∀ input s, mainStateStartup true input fresh = .proceed s → State.load input = .ok s) := by
  refine ⟨?_, ?_, ?_, ?_, ?_, ?_⟩
  · intro e
    exact ⟨rfl, rfl⟩
  · intro h
    simp [State.load, mainStateStartup, h]
  · intro h1 h2
    simp [State.load, h1, h2]
  · intro vs h1 h2 h3
    constructor
    · simp [State.load, h1, h2, h3]
    · simp [mainStateStartup, State.load, h1, h2, h3]
  · intro vs n h1 h2 h3 h4
    simp [State.load, h1, h2, h3, h4]
  · intro input s h
    cases hl : State.load input with
    | ok s0 =>
      simp [mainStateStartup, hl] at h
      rw [h]
    | error e => simp [mainStateStartup, hl] at h
    | panic => simp [mainStateStartup, hl] at h

/-- Witness for C9: a parsed document with no `general` section makes
load panic and startup abort. -/
theorem claim_C9_amended_witness :
    State.load (.ok [("misc", [])]) = .panic ∧
      mainStateStartup true (.ok [("misc", [])]) ⟨7, 0⟩ = .panicked :=
  (claim_C9_amended [("misc", [])] [] ⟨7, 0⟩).2.1 rfl

/-- C10: frame property of `skip`: whatever the child handle and the
outcome of the kill/wait calls, `skip` leaves the seed, the cursor, the
playlist contents and the current track unchanged. -/
theorem claim_C10_skip_frame (p : Player) :
    ((Player.skip p).2).state.seed = p.state.seed ∧
      ((Player.skip p).2).state.index = p.state.index ∧
      ((Player.skip p).2).playlist = p.playlist ∧
      ((Player.skip p).2).current_track = p.current_track := by
  cases hc : p.child with
  | none => simp [Player.skip, hc]
  | some c =>
    by_cases hk : c.killFails <;> by_cases hw : c.waitFails <;>
      simp [Player.skip, ChildProc.kill, ChildProc.wait, hc, hk, hw]

end Partyplayer
